import Mathlib

/-!
Shallow embedding of the streaming sample-buffer and rolling-window rendering
pipeline implemented by `realtime_plot.py` (serial variant, `ArduinoReader`)
and `video_reader.py` (camera variant, `VideoReader`).

Python floats are modelled as rationals (`ℚ`); the two parallel Python lists
`self.times` / `self.values` (resp. `self.ppg_times` / `self.ppg_values`) are
modelled as a `Buffer` structure holding two `List ℚ` fields.
-/

/-- `self.max_points = 1000` in `ArduinoReader.__init__`. -/
def maxPointsSerial : Nat := 1000

/-- `self.max_points = 500` in `VideoReader.__init__`. -/
def maxPointsCamera : Nat := 500

/-- `self.time_window = 10` in `ArduinoReader.__init__` (display last 10 s). -/
def timeWindowSerial : ℚ := 10

/-- `self.window_size = 10` in `VideoReader.__init__` (rolling window, s). -/
def windowSizeCamera : ℚ := 10

/-- The pair of parallel sample lists kept by both readers:
`self.times` / `self.values` in `ArduinoReader`, `self.ppg_times` /
`self.ppg_values` in `VideoReader`. -/
structure Buffer where
  times : List ℚ
  values : List ℚ
deriving DecidableEq

/-- Both buffers start out as two empty lists. -/
def bufEmpty : Buffer := ⟨[], []⟩

/-- One bounded append, as written in both readers: append the timestamp and
the value to the tails of the two lists, then
`if len(self.times) > self.max_points: self.times.pop(0); self.values.pop(0)`
(the camera variant checks `len(self.ppg_values)`, which is identical in
length to its times list). `pop(0)` is `List.drop 1`. -/
def appendSample (cap : Nat) (buf : Buffer) (t v : ℚ) : Buffer :=
  if cap < (buf.times ++ [t]).length then
    ⟨(buf.times ++ [t]).drop 1, (buf.values ++ [v]).drop 1⟩
  else
    ⟨buf.times ++ [t], buf.values ++ [v]⟩

/-- Folding a whole list of `(timestamp, value)` samples into the buffer, one
`appendSample` per sample, in order of arrival. -/
def ingest (cap : Nat) (buf : Buffer) (samples : List (ℚ × ℚ)) : Buffer :=
  samples.foldl (fun b s => appendSample cap b s.1 s.2) buf

/-- The single-list content of one bounded append: append one element at the
tail, then drop the head when over capacity. -/
def appendDrop (cap : Nat) (l : List ℚ) (x : ℚ) : List ℚ :=
  if cap < (l ++ [x]).length then (l ++ [x]).drop 1 else l ++ [x]

lemma appendDrop_drop (cap : Nat) (hcap : 0 < cap) (l : List ℚ) (x : ℚ) :
    appendDrop cap (l.drop (l.length - cap)) x =
      (l ++ [x]).drop (l.length + 1 - cap) := by
  unfold appendDrop
  rcases Nat.lt_or_ge l.length cap with h | h
  · have h0 : l.length - cap = 0 := Nat.sub_eq_zero_of_le h.le
    have h1 : l.length + 1 - cap = 0 := Nat.sub_eq_zero_of_le h
    rw [h0, h1, List.drop_zero, List.drop_zero, if_neg]
    simp only [List.length_append, List.length_singleton]
    omega
  · have hlen : (l.drop (l.length - cap)).length = cap := by
      rw [List.length_drop]; omega
    rw [if_pos (by rw [List.length_append, hlen]; simp)]
    rw [List.drop_append_of_le_length (by rw [hlen]; omega),
        List.drop_append_of_le_length (by omega), List.drop_drop]
    congr 2
    omega

lemma ingest_eq_drop (cap : Nat) (hcap : 0 < cap) (samples : List (ℚ × ℚ)) :
    ingest cap bufEmpty samples =
      ⟨(samples.map Prod.fst).drop (samples.length - cap),
       (samples.map Prod.snd).drop (samples.length - cap)⟩ := by
  induction samples using List.reverseRecOn with
  | nil => simp [ingest, bufEmpty]
  | append_singleton rest s ih =>
    have hstep : ingest cap bufEmpty (rest ++ [s]) =
        appendSample cap (ingest cap bufEmpty rest) s.1 s.2 := by
      unfold ingest
      rw [List.foldl_append]
      rfl
    have hT : (rest.map Prod.fst).length = rest.length := List.length_map _ _
    have hS : (rest.map Prod.snd).length = rest.length := List.length_map _ _
    have htimes := appendDrop_drop cap hcap (rest.map Prod.fst) s.1
    have hvals := appendDrop_drop cap hcap (rest.map Prod.snd) s.2
    unfold appendDrop at htimes hvals
    rw [hT] at htimes
    rw [hS] at hvals
    rw [hstep, ih]
    unfold appendSample
    simp only [List.map_append, List.map_cons, List.map_nil, List.length_append,
      List.length_singleton] at htimes hvals ⊢
    have hBA : (List.drop (rest.length - cap) (List.map Prod.snd rest)).length
        = (List.drop (rest.length - cap) (List.map Prod.fst rest)).length := by
      simp only [List.length_drop, hT, hS]
    rw [hBA] at hvals
    by_cases hc :
        cap < (List.drop (rest.length - cap) (List.map Prod.fst rest)).length + 1
    · rw [if_pos hc] at htimes hvals ⊢
      rw [htimes, hvals]
    · rw [if_neg hc] at htimes hvals ⊢
      rw [htimes, hvals]

/-- The digit-string part of Python `int(...)`: a nonempty all-digit string of
decimal digits, read as a natural number; anything else raises
(here: `none`). -/
def parseDigits (cs : List Char) : Option Nat :=
  if cs ≠ [] ∧ cs.all (fun c => c.isDigit) then
    some (cs.foldl (fun a c => 10 * a + (c.toNat - 48)) 0)
  else
    none

/-- Python `int(line)` on an already-stripped line: an optional single sign
followed by decimal digits; any other shape raises `ValueError`
(here: `none`). -/
def parsePyInt (s : String) : Option Int :=
  match s.data with
  | [] => none
  | c :: cs =>
    if c = '-' then (parseDigits cs).map (fun n => -(n : Int))
    else if c = '+' then (parseDigits cs).map (fun n => (n : Int))
    else (parseDigits (c :: cs)).map (fun n => (n : Int))

/-- The body of the `try:` block of one iteration of
`ArduinoReader.read_all_available_data`. The event is the outcome of
`self.serial_port.readline().decode('utf-8').strip()`: either a line
(`Except.ok`) or a raised read/decode error (`Except.error`). A nonempty line
is parsed with `int(line)` (which may raise), then appended with the current
relative timestamp `t`, and `data_read` is set. An `Except.error` result is
an exception escaping the `try:` body. -/
def drainStepE (cap : Nat) (ev : Except String String) (t : ℚ) (buf : Buffer)
    (flag : Bool) : Except String (Buffer × Bool) :=
  match ev with
  | Except.error e => Except.error e
  | Except.ok line =>
    if line = "" then Except.ok (buf, flag)
    else
      match parsePyInt line with
      | none => Except.error "invalid literal for int"
      | some v => Except.ok (appendSample cap buf t (v : ℚ), true)

/-- `ArduinoReader.read_all_available_data`: the `while in_waiting:` drain
loop. Each available input is one `(readline outcome, relative timestamp)`
pair; the loop body is `drainStepE` wrapped in `try/except Exception`, so a
raised step leaves the buffer and `data_read` unchanged and the loop
continues. The codomain is `Except` so that an exception escaping the whole
call would show up as `Except.error`. -/
def readAllAvailableData (cap : Nat) :
    List (Except String String × ℚ) → Buffer → Bool →
      Except String (Buffer × Bool)
  | [], buf, flag => Except.ok (buf, flag)
  | (ev, t) :: rest, buf, flag =>
    match drainStepE cap ev t buf flag with
    | Except.ok (b, f) => readAllAvailableData cap rest b f
    | Except.error _ => readAllAvailableData cap rest buf flag

/-- Python `min(xs)` on a nonempty list (the callers guard nonemptiness). -/
def pyMin : List ℚ → ℚ
  | [] => 0
  | x :: xs => xs.foldl min x

/-- Python `max(xs)` on a nonempty list (the callers guard nonemptiness). -/
def pyMax : List ℚ → ℚ
  | [] => 0
  | x :: xs => xs.foldl max x

/-- `l[0]` on a nonempty list (the callers guard nonemptiness). -/
def pyFirst (l : List ℚ) : ℚ := l.headD 0

/-- `l[-1]` on a nonempty list (the callers guard nonemptiness). -/
def pyLast (l : List ℚ) : ℚ := l.getLastD 0

/-- The displayed view state mutated by the `update_plot` callbacks:
the axes limits set by `set_xlim` / `set_ylim`, and the data rate last shown
in the title (`none` while the title has never displayed a rate). -/
structure PlotState where
  xlim : ℚ × ℚ
  ylim : ℚ × ℚ
  rate : Option ℚ
deriving DecidableEq

/-- The axes state configured in `ArduinoReader.run` before the animation
starts: `set_xlim(0, self.time_window)`, `set_ylim(0, 100)`, and a title with
no rate. -/
def initialPlotStateSerial : PlotState := ⟨(0, timeWindowSerial), (0, 100), none⟩

/-- `ArduinoReader.update_plot` (the data-dependent part, after the drain):
under `if self.times and self.values:` it
(1) sets the y-limits by the midpoint/half-range scheme when
`len(self.values) > 5`: `y_range = max(50, cmax - cmin)`,
`y_mid = (cmin + cmax)/2`, limits `y_mid ∓ y_range/1.8`;
(2) sets the x-limits to `(max(0, now - time_window), now + 0.5)` where
`now = time.time() - self.start_time`;
(3) when `len(self.times) > 10`, shows
`data_rate = len(self.times) / (self.times[-1] - self.times[0])`. -/
def updatePlotSerial (buf : Buffer) (now : ℚ) (st : PlotState) : PlotState :=
  if buf.times ≠ [] ∧ buf.values ≠ [] then
    let st1 :=
      if 5 < buf.values.length then
        let cmin := pyMin buf.values
        let cmax := pyMax buf.values
        let yRange := max 50 (cmax - cmin)
        let yMid := (cmin + cmax) / 2
        { st with ylim := (yMid - yRange / (9/5), yMid + yRange / (9/5)) }
      else st
    let st2 := { st1 with xlim := (max 0 (now - timeWindowSerial), now + 1/2) }
    if 10 < buf.times.length then
      { st2 with
        rate := some ((buf.times.length : ℚ) /
          (pyLast buf.times - pyFirst buf.times)) }
    else st2
  else st

/-- `VideoReader.update_plot`: under `if self.ppg_values and self.ppg_times:`
it (1) sets the x-limits to `(max(0, t - window_size), t + 0.1)` where
`t = self.ppg_times[-1]`; (2) sets the y-limits to
`(min(values) - 10, max(values) + 10)`; (3) when `len(self.ppg_values) > 10`,
shows `data_rate = len(self.ppg_values) / (time.time() - self.start_time)`,
whose denominator is the wall-clock time `now` since acquisition start. -/
def updatePlotCamera (buf : Buffer) (now : ℚ) (st : PlotState) : PlotState :=
  if buf.values ≠ [] ∧ buf.times ≠ [] then
    let t := pyLast buf.times
    let st1 := { st with xlim := (max 0 (t - windowSizeCamera), t + 1/10) }
    let st2 :=
      { st1 with ylim := (pyMin buf.values - 10, pyMax buf.values + 10) }
    if 10 < buf.values.length then
      { st2 with rate := some ((buf.values.length : ℚ) / now) }
    else st2
  else st

/-- The run-lifecycle phases of §4.4's state machine; the code reaches
`running` once the source is open and the animation is live, and `closed`
once the `finally:` cleanup has run. -/
inductive Phase
  | idle
  | acquiring
  | running
  | closing
  | closed
deriving DecidableEq

/-- Lifecycle bookkeeping: the current phase and how many times the source's
close/release operation (`serial_port.close()` / `cap.release()`) has been
invoked. -/
structure RunState where
  phase : Phase
  closeCalls : Nat
deriving DecidableEq

/-- How `plt.show()` inside the `try:` of `ArduinoReader.run` ends: the user
closes the window (normal return) or an exception propagates out of it. -/
inductive ShowOutcome
  | windowClosed
  | raised (msg : String)

/-- The `finally:` block of `ArduinoReader.run`:
`if self.serial_port: self.serial_port.close()`, after which the run is over
(terminal `closed` phase). -/
def closeSerial (portOpen : Bool) (s : RunState) : RunState :=
  if portOpen then ⟨Phase.closed, s.closeCalls + 1⟩ else ⟨Phase.closed, s.closeCalls⟩

/-- The tail of `ArduinoReader.run` once the port is open and the animation
is running: `try: ... plt.show() finally: ...close()`. The `finally:` runs on
both exits; an exception is re-raised afterwards (second component). -/
def runSerialFinish (portOpen : Bool) (o : ShowOutcome) : RunState × Option String :=
  match o with
  | ShowOutcome.windowClosed => (closeSerial portOpen ⟨Phase.running, 0⟩, none)
  | ShowOutcome.raised m => (closeSerial portOpen ⟨Phase.running, 0⟩, some m)

/-- What one iteration of the `while self.is_running:` loop of
`VideoReader.start` does: read a frame and continue, break on a failed frame
read, break on a display error (caught locally), break on the quit key, or
raise an exception out of the loop body. -/
inductive TickEvent
  | frameOk
  | frameReadFail
  | displayFail
  | quitKey
  | raised (msg : String)

/-- The `while self.is_running:` loop of `VideoReader.start` over a schedule
of tick events: `frameOk` continues, the three break events end the loop
normally, `raised` escapes the loop with an exception; an exhausted schedule
models `is_running` being cleared. -/
def videoLoop : List TickEvent → Except String Unit
  | [] => Except.ok ()
  | TickEvent.frameOk :: rest => videoLoop rest
  | TickEvent.frameReadFail :: _ => Except.ok ()
  | TickEvent.displayFail :: _ => Except.ok ()
  | TickEvent.quitKey :: _ => Except.ok ()
  | TickEvent.raised _ :: _ => Except.error "error in video capture"

/-- `VideoReader.close`: releases the capture when it is open
(`if self.cap: self.cap.release()`) and tears the windows, animation and
figure down; terminal `closed` phase. -/
def closeVideo (capOpen : Bool) (s : RunState) : RunState :=
  ⟨Phase.closed, s.closeCalls + (if capOpen then 1 else 0)⟩

/-- `VideoReader.start` once the capture is open and the loop is running:
`try:` the capture loop, `except Exception:` print the traceback (the error
is absorbed), `finally: self.close()`. -/
def runVideo (capOpen : Bool) (ticks : List TickEvent) : RunState :=
  match videoLoop ticks with
  | Except.ok _ => closeVideo capOpen ⟨Phase.running, 0⟩
  | Except.error _ => closeVideo capOpen ⟨Phase.running, 0⟩

lemma appendSample_length_eq (cap : Nat) (buf : Buffer) (t v : ℚ)
    (h : buf.times.length = buf.values.length) :
    (appendSample cap buf t v).times.length =
      (appendSample cap buf t v).values.length := by
  unfold appendSample
  split <;> simp [h]

/-- Claim C1: buffer length never exceeds the fixed capacity (1000 serial,
500 camera) after any sequence of appends; the retained contents are exactly
the suffix of all samples ever appended starting at index
`max(0, total_appended - capacity)` (natural subtraction), so the oldest
retained sample is the one at that index; appending 1500 samples to a
capacity-500 buffer leaves exactly the samples of indices 1000..1499 in
their original order. -/
theorem C1_bounded_fifo :
    (∀ (cap : Nat), 0 < cap → ∀ samples : List (ℚ × ℚ),
      (ingest cap bufEmpty samples).times.length ≤ cap ∧
      (ingest cap bufEmpty samples).times =
        (samples.map Prod.fst).drop (samples.length - cap) ∧
      (ingest cap bufEmpty samples).values =
        (samples.map Prod.snd).drop (samples.length - cap) ∧
      (ingest cap bufEmpty samples).values.head? =
        (samples.map Prod.snd)[samples.length - cap]?) ∧
    maxPointsSerial = 1000 ∧ maxPointsCamera = 500 ∧
    (ingest maxPointsCamera bufEmpty
        ((List.range 1500).map (fun i : Nat => ((i : ℚ), (i : ℚ))))).values =
      List.map (fun i : Nat => (i : ℚ)) ((List.range 1500).drop 1000) ∧
    (ingest maxPointsCamera bufEmpty
        ((List.range 1500).map (fun i : Nat => ((i : ℚ), (i : ℚ))))).values.length =
      500 := by
  have key : ∀ (cap : Nat), 0 < cap → ∀ samples : List (ℚ × ℚ),
      (ingest cap bufEmpty samples).times.length ≤ cap ∧
      (ingest cap bufEmpty samples).times =
        (samples.map Prod.fst).drop (samples.length - cap) ∧
      (ingest cap bufEmpty samples).values =
        (samples.map Prod.snd).drop (samples.length - cap) ∧
      (ingest cap bufEmpty samples).values.head? =
        (samples.map Prod.snd)[samples.length - cap]? := by
    intro cap hcap samples
    have h := ingest_eq_drop cap hcap samples
    refine ⟨?_, ?_, ?_, ?_⟩
    · rw [h]
      simp only [List.length_drop, List.length_map]
      omega
    · rw [h]
    · rw [h]
    · rw [h]
      exact List.head?_drop _ _
  have hlen : ((List.range 1500).map (fun i : Nat => ((i : ℚ), (i : ℚ)))).length
      = 1500 := by
    simp
  have h := (key maxPointsCamera (by norm_num [maxPointsCamera])
    ((List.range 1500).map (fun i : Nat => ((i : ℚ), (i : ℚ))))).2.2.1
  refine ⟨key, rfl, rfl, ?_, ?_⟩
  · rw [h, hlen, List.map_map]
    norm_num [maxPointsCamera]
    rw [← List.map_drop]
    simp [Function.comp_def]
  · rw [h]
    simp only [List.length_drop, hlen]
    norm_num [maxPointsCamera]

/-- Concrete instantiation of the universally quantified part of the C1
theorem: capacity 2, three appended samples; only the last two remain and the
oldest retained one is the middle sample. -/
theorem C1_bounded_fifo_witness :
    0 < 2 ∧
    ((ingest 2 bufEmpty [((0 : ℚ), (5 : ℚ)), (1, 6), (2, 7)]).times.length ≤ 2 ∧
     (ingest 2 bufEmpty [((0 : ℚ), (5 : ℚ)), (1, 6), (2, 7)]).times =
       ([((0 : ℚ), (5 : ℚ)), (1, 6), (2, 7)].map Prod.fst).drop
         ([((0 : ℚ), (5 : ℚ)), (1, 6), (2, 7)].length - 2) ∧
     (ingest 2 bufEmpty [((0 : ℚ), (5 : ℚ)), (1, 6), (2, 7)]).values =
       ([((0 : ℚ), (5 : ℚ)), (1, 6), (2, 7)].map Prod.snd).drop
         ([((0 : ℚ), (5 : ℚ)), (1, 6), (2, 7)].length - 2) ∧
     (ingest 2 bufEmpty [((0 : ℚ), (5 : ℚ)), (1, 6), (2, 7)]).values.head? =
       ([((0 : ℚ), (5 : ℚ)), (1, 6), (2, 7)].map Prod.snd)[
         [((0 : ℚ), (5 : ℚ)), (1, 6), (2, 7)].length - 2]?) :=
  ⟨by decide, C1_bounded_fifo.1 2 (by decide) [((0 : ℚ), (5 : ℚ)), (1, 6), (2, 7)]⟩

/-- Claim C10: the two parallel lists always have equal length: starting from
any buffer whose lists agree in length, any sequence of ingested samples
preserves `len(times) = len(values)`. -/
theorem C10_parallel_lengths :
    ∀ (cap : Nat) (samples : List (ℚ × ℚ)) (buf : Buffer),
      buf.times.length = buf.values.length →
      (ingest cap buf samples).times.length =
        (ingest cap buf samples).values.length := by
  intro cap samples
  induction samples with
  | nil => intro buf h; exact h
  | cons s rest ih =>
    intro buf h
    exact ih (appendSample cap buf s.1 s.2) (appendSample_length_eq cap buf s.1 s.2 h)

/-- Concrete instantiation of C10: two samples into an initially empty
capacity-1 buffer keep the two lists at equal length. -/
theorem C10_parallel_lengths_witness :
    bufEmpty.times.length = bufEmpty.values.length ∧
    (ingest 1 bufEmpty [((0 : ℚ), (1 : ℚ)), (2, 3)]).times.length =
      (ingest 1 bufEmpty [((0 : ℚ), (1 : ℚ)), (2, 3)]).values.length :=
  ⟨rfl, C10_parallel_lengths 1 [((0 : ℚ), (1 : ℚ)), (2, 3)] bufEmpty rfl⟩

/-- Claim C7: when the appended timestamps come from a non-decreasing clock
(the input timestamp list is sorted), the buffer's stored timestamps are
non-decreasing after any sequence of appends and evictions. -/
theorem C7_times_sorted :
    ∀ (cap : Nat), 0 < cap → ∀ samples : List (ℚ × ℚ),
      (samples.map Prod.fst).Sorted (· ≤ ·) →
      ((ingest cap bufEmpty samples).times).Sorted (· ≤ ·) := by
  intro cap hcap samples hs
  rw [ingest_eq_drop cap hcap samples]
  exact hs.sublist (List.drop_sublist _ _)

/-- Concrete instantiation of C7: three samples with non-decreasing
timestamps into a capacity-2 buffer leave sorted timestamps. -/
theorem C7_times_sorted_witness :
    0 < 2 ∧
    (([((0 : ℚ), (1 : ℚ)), (1, 2), (3, 4)].map Prod.fst).Sorted (· ≤ ·)) ∧
    ((ingest 2 bufEmpty [((0 : ℚ), (1 : ℚ)), (1, 2), (3, 4)]).times).Sorted
      (· ≤ ·) :=
  ⟨by decide, by decide,
    C7_times_sorted 2 (by decide) [((0 : ℚ), (1 : ℚ)), (1, 2), (3, 4)]
      (by decide)⟩

/-- Claim C3: a line that fails to decode is skipped: it leaves the buffer
(and the `data_read` flag) unchanged and the drain continues with the rest of
the inputs; feeding the lines "12", "oops", "34" appends exactly two samples
with values 12 and 34, in that order. -/
theorem C3_bad_line_skipped :
    (∀ (cap : Nat) (rest : List (Except String String × ℚ)) (buf : Buffer)
        (flag : Bool) (line : String) (t : ℚ),
        line ≠ "" → parsePyInt line = none →
        readAllAvailableData cap ((Except.ok line, t) :: rest) buf flag =
          readAllAvailableData cap rest buf flag) ∧
    readAllAvailableData 1000
        [(Except.ok "12", 1), (Except.ok "oops", 2), (Except.ok "34", 3)]
        bufEmpty false =
      Except.ok (⟨[1, 3], [12, 34]⟩, true) := by
  constructor
  · intro cap rest buf flag line t h1 h2
    simp [readAllAvailableData, drainStepE, h1, h2]
  · rfl

/-- Concrete instantiation of the universally quantified part of the C3
theorem at the undecodable line "oops". -/
theorem C3_bad_line_skipped_witness :
    ("oops" ≠ "" ∧ parsePyInt "oops" = none) ∧
    readAllAvailableData 1000 [(Except.ok "oops", 2)] bufEmpty false =
      readAllAvailableData 1000 [] bufEmpty false :=
  ⟨⟨by decide, by decide⟩,
    C3_bad_line_skipped.1 1000 [] bufEmpty false "oops" 2 (by decide)
      (by decide)⟩

/-- Claim C6: the drain loop never lets an exception escape to its caller:
for every sequence of read outcomes (including raising reads and undecodable
lines) the call returns an ordinary result, and a step whose `try:` body
raises leaves the buffer and flag unchanged while the loop continues. -/
theorem C6_drain_never_raises :
    (∀ (cap : Nat) (inputs : List (Except String String × ℚ)) (buf : Buffer)
        (flag : Bool),
        (readAllAvailableData cap inputs buf flag).isOk = true) ∧
    (∀ (cap : Nat) (ev : Except String String) (t : ℚ)
        (rest : List (Except String String × ℚ)) (buf : Buffer) (flag : Bool)
        (e : String),
        drainStepE cap ev t buf flag = Except.error e →
        readAllAvailableData cap ((ev, t) :: rest) buf flag =
          readAllAvailableData cap rest buf flag) := by
  constructor
  · intro cap inputs
    induction inputs with
    | nil => intro buf flag; rfl
    | cons p rest ih =>
      intro buf flag
      obtain ⟨ev, t⟩ := p
      cases h : drainStepE cap ev t buf flag with
      | ok bf =>
        obtain ⟨b, f⟩ := bf
        rw [readAllAvailableData, h]
        exact ih b f
      | error e =>
        rw [readAllAvailableData, h]
        exact ih buf flag
  · intro cap ev t rest buf flag e h
    rw [readAllAvailableData, h]

/-- Concrete instantiation of the hypothesis-bearing part of the C6 theorem
at a raising read event. -/
theorem C6_drain_never_raises_witness :
    drainStepE 1000 (Except.error "device gone") 0 bufEmpty false =
      Except.error "device gone" ∧
    readAllAvailableData 1000 [(Except.error "device gone", 0)] bufEmpty
        false =
      readAllAvailableData 1000 [] bufEmpty false :=
  ⟨rfl,
    C6_drain_never_raises.2 1000 (Except.error "device gone") 0 [] bufEmpty
      false "device gone" rfl⟩

/-- A buffer of exactly 11 samples whose timestamps span 1.0 second
(0.0, 0.1, ..., 1.0). -/
def buf11 : Buffer :=
  ⟨[0, 1/10, 2/10, 3/10, 4/10, 5/10, 6/10, 7/10, 8/10, 9/10, 1],
   [0, 0, 0, 0, 0, 0, 0, 0, 0, 0, 0]⟩

/-- Claim C2 counterexample: on a buffer of exactly 11 samples spanning 1.0 s
the serial `update_plot` displays `len(times) / (times[-1] - times[0])`
= 11.0 Hz, while the claimed formula `(count - 1) / (t_last - t_first)`
gives 10.0; these differ. -/
theorem C2_rate_counterexample :
    (updatePlotSerial buf11 2 initialPlotStateSerial).rate = some 11 ∧
    ((buf11.times.length : ℚ) - 1) /
        (pyLast buf11.times - pyFirst buf11.times) = 10 ∧
    (11 : ℚ) ≠ 10 := by
  refine ⟨?_, ?_, by norm_num⟩
  · simp [updatePlotSerial, buf11, pyLast, pyFirst]
  · simp [buf11, pyLast, pyFirst]
    norm_num

/-- Claim C2 as amended: above the 10-sample minimum and with a nonzero
denominator, the serial variant displays `count / (t_last - t_first)` over
the buffer's current span (so 11 samples spanning 1.0 s display 11.0 Hz, not
10.0), and the camera variant displays `count / now`, where `now` is the
wall-clock time since acquisition start, not the buffer span. -/
theorem C2_rate_amended :
    (∀ (buf : Buffer) (now : ℚ) (st : PlotState),
        buf.times ≠ [] → buf.values ≠ [] → 10 < buf.times.length →
        pyLast buf.times - pyFirst buf.times ≠ 0 →
        (updatePlotSerial buf now st).rate =
          some ((buf.times.length : ℚ) /
            (pyLast buf.times - pyFirst buf.times))) ∧
    (∀ (buf : Buffer) (now : ℚ) (st : PlotState),
        buf.values ≠ [] → buf.times ≠ [] → 10 < buf.values.length →
        now ≠ 0 →
        (updatePlotCamera buf now st).rate =
          some ((buf.values.length : ℚ) / now)) ∧
    (updatePlotSerial buf11 2 initialPlotStateSerial).rate = some 11 := by
  refine ⟨?_, ?_, ?_⟩
  · intro buf now st h1 h2 h3 _
    simp [updatePlotSerial, h1, h2, h3]
  · intro buf now st h1 h2 h3 _
    simp [updatePlotCamera, h1, h2, h3]
  · simp [updatePlotSerial, buf11, pyLast, pyFirst]

/-- Concrete instantiation of the two universally quantified parts of the
amended C2 theorem on `buf11`. -/
theorem C2_rate_amended_witness :
    (buf11.times ≠ [] ∧ buf11.values ≠ [] ∧ 10 < buf11.times.length ∧
      pyLast buf11.times - pyFirst buf11.times ≠ 0 ∧
      (updatePlotSerial buf11 2 initialPlotStateSerial).rate =
        some ((buf11.times.length : ℚ) /
          (pyLast buf11.times - pyFirst buf11.times))) ∧
    (10 < buf11.values.length ∧ (11 / 5 : ℚ) ≠ 0 ∧
      (updatePlotCamera buf11 (11 / 5) initialPlotStateSerial).rate =
        some ((buf11.values.length : ℚ) / (11 / 5))) :=
  ⟨⟨by decide, by decide, by decide,
     by simp [buf11, pyLast, pyFirst],
     C2_rate_amended.1 buf11 2 initialPlotStateSerial (by decide) (by decide)
       (by decide) (by simp [buf11, pyLast, pyFirst])⟩,
   ⟨by decide, by norm_num,
     C2_rate_amended.2.1 buf11 (11 / 5) initialPlotStateSerial (by decide)
       (by decide) (by decide) (by norm_num)⟩⟩

/-- Claim C4: whenever the serial y-autoscale is applied (the code applies it
once the buffer holds more than 5 values), the y-limits follow the
midpoint/half-range scheme with floor 50: `mid = (min+max)/2`,
`range = max(50, max-min)`, bounds `mid ∓ range/1.8`; on the values
`[100, 100, 100, 200]` the scheme's range is `max(50, 100) = 100`, its
midpoint is 150, and its bounds are `(150 - 100/1.8, 150 + 100/1.8)`. -/
theorem C4_yscale_scheme :
    (∀ (buf : Buffer) (now : ℚ) (st : PlotState),
        buf.times ≠ [] → buf.values ≠ [] → 5 < buf.values.length →
        (updatePlotSerial buf now st).ylim =
          ((pyMin buf.values + pyMax buf.values) / 2 -
              max 50 (pyMax buf.values - pyMin buf.values) / (9/5),
           (pyMin buf.values + pyMax buf.values) / 2 +
              max 50 (pyMax buf.values - pyMin buf.values) / (9/5))) ∧
    max 50 (pyMax [(100 : ℚ), 100, 100, 200] -
        pyMin [(100 : ℚ), 100, 100, 200]) = 100 ∧
    (pyMin [(100 : ℚ), 100, 100, 200] + pyMax [(100 : ℚ), 100, 100, 200]) / 2
      = 150 ∧
    ((pyMin [(100 : ℚ), 100, 100, 200] + pyMax [(100 : ℚ), 100, 100, 200]) / 2
        - max 50 (pyMax [(100 : ℚ), 100, 100, 200] -
            pyMin [(100 : ℚ), 100, 100, 200]) / (9/5),
     (pyMin [(100 : ℚ), 100, 100, 200] + pyMax [(100 : ℚ), 100, 100, 200]) / 2
        + max 50 (pyMax [(100 : ℚ), 100, 100, 200] -
            pyMin [(100 : ℚ), 100, 100, 200]) / (9/5)) =
      (150 - 100 / (9/5), 150 + 100 / (9/5)) := by
  refine ⟨?_, ?_, ?_, ?_⟩
  · intro buf now st h1 h2 h3
    simp [updatePlotSerial, h1, h2, h3, apply_ite]
  · simp [pyMin, pyMax]
    norm_num
  · simp [pyMin, pyMax]
    norm_num
  · simp [pyMin, pyMax]
    norm_num

/-- Concrete instantiation of the universally quantified part of the C4
theorem on a 6-value buffer. -/
theorem C4_yscale_scheme_witness :
    ((⟨[0, 1, 2, 3, 4, 5], [100, 100, 100, 200, 100, 100]⟩ : Buffer).times
        ≠ [] ∧
     5 < (⟨[0, 1, 2, 3, 4, 5], [100, 100, 100, 200, 100, 100]⟩ :
        Buffer).values.length) ∧
    (updatePlotSerial ⟨[0, 1, 2, 3, 4, 5], [100, 100, 100, 200, 100, 100]⟩ 6
        initialPlotStateSerial).ylim =
      ((pyMin [(100 : ℚ), 100, 100, 200, 100, 100] +
          pyMax [(100 : ℚ), 100, 100, 200, 100, 100]) / 2 -
        max 50 (pyMax [(100 : ℚ), 100, 100, 200, 100, 100] -
          pyMin [(100 : ℚ), 100, 100, 200, 100, 100]) / (9/5),
       (pyMin [(100 : ℚ), 100, 100, 200, 100, 100] +
          pyMax [(100 : ℚ), 100, 100, 200, 100, 100]) / 2 +
        max 50 (pyMax [(100 : ℚ), 100, 100, 200, 100, 100] -
          pyMin [(100 : ℚ), 100, 100, 200, 100, 100]) / (9/5)) :=
  ⟨⟨by decide, by decide⟩,
    C4_yscale_scheme.1 ⟨[0, 1, 2, 3, 4, 5], [100, 100, 100, 200, 100, 100]⟩ 6
      initialPlotStateSerial (by decide) (by decide) (by decide)⟩

/-- Claim C5 counterexample: for a nonempty serial buffer at
`now = 9.7 s`, the code sets `x_max = now + 0.5 = 10.2` but
`x_min = max(0, now - 10) = 0`, whereas the claimed
`x_min = max(0, x_max - 10)` is `0.2`. -/
theorem C5_xbounds_counterexample :
    (updatePlotSerial ⟨[1], [1]⟩ (97/10) initialPlotStateSerial).xlim =
      (0, 51/5) ∧
    max (0 : ℚ) (51/5 - timeWindowSerial) = 1/5 ∧
    (0 : ℚ) ≠ 1/5 := by
  refine ⟨?_, ?_, by norm_num⟩
  · simp [updatePlotSerial, timeWindowSerial]
    norm_num
  · simp [timeWindowSerial]
    norm_num

/-- Claim C5 as amended: for every nonempty buffer the serial variant sets
`x_max = now + 0.5` and `x_min = max(0, now - 10)` (the window is anchored at
`now`, not at `x_max`), and the camera variant sets
`x_max = t_last + 0.1` and `x_min = max(0, t_last - 10)` where `t_last` is
the newest buffered timestamp (its stand-in for "now"), not the wall
clock. -/
theorem C5_xbounds_amended :
    (∀ (buf : Buffer) (now : ℚ) (st : PlotState),
        buf.times ≠ [] → buf.values ≠ [] →
        (updatePlotSerial buf now st).xlim =
          (max 0 (now - timeWindowSerial), now + 1/2)) ∧
    (∀ (buf : Buffer) (now : ℚ) (st : PlotState),
        buf.values ≠ [] → buf.times ≠ [] →
        (updatePlotCamera buf now st).xlim =
          (max 0 (pyLast buf.times - windowSizeCamera),
           pyLast buf.times + 1/10)) := by
  constructor
  · intro buf now st h1 h2
    simp [updatePlotSerial, h1, h2, apply_ite]
  · intro buf now st h1 h2
    simp [updatePlotCamera, h1, h2, apply_ite]

/-- Concrete instantiation of both universally quantified parts of the
amended C5 theorem on a one-sample buffer. -/
theorem C5_xbounds_amended_witness :
    ((⟨[1], [1]⟩ : Buffer).times ≠ [] ∧ (⟨[1], [1]⟩ : Buffer).values ≠ []) ∧
    (updatePlotSerial ⟨[1], [1]⟩ (97/10) initialPlotStateSerial).xlim =
      (max 0 ((97/10) - timeWindowSerial), (97/10) + 1/2) ∧
    (updatePlotCamera ⟨[1], [1]⟩ (97/10) initialPlotStateSerial).xlim =
      (max 0 (pyLast [(1 : ℚ)] - windowSizeCamera), pyLast [(1 : ℚ)] + 1/10) :=
  ⟨⟨by decide, by decide⟩,
    C5_xbounds_amended.1 ⟨[1], [1]⟩ (97/10) initialPlotStateSerial (by decide)
      (by decide),
    C5_xbounds_amended.2 ⟨[1], [1]⟩ (97/10) initialPlotStateSerial (by decide)
      (by decide)⟩

/-- Claim C8: on an empty buffer the serial view-update step changes nothing,
so the display stays at the defaults configured in `run` — x-limits
`(0, 10)`, y-limits `(0, 100)` — and no sample rate is ever reported. -/
theorem C8_empty_buffer_defaults :
    (∀ (now : ℚ) (st : PlotState), updatePlotSerial bufEmpty now st = st) ∧
    initialPlotStateSerial.xlim = (0, timeWindowSerial) ∧
    timeWindowSerial = 10 ∧
    initialPlotStateSerial.ylim = (0, 100) ∧
    initialPlotStateSerial.rate = none ∧
    (updatePlotSerial bufEmpty 7 initialPlotStateSerial).rate = none := by
  have hempty : ∀ (now : ℚ) (st : PlotState),
      updatePlotSerial bufEmpty now st = st := by
    intro now st
    rw [updatePlotSerial, if_neg (by simp [bufEmpty])]
  refine ⟨hempty, rfl, rfl, rfl, rfl, ?_⟩
  rw [hempty 7 initialPlotStateSerial]
  rfl

/-- Claim C9: from the running state, every exit of the run loop — normal
stop (window close or quit key) as well as an error raised mid-loop — ends in
the terminal closed phase with the source's close/release operation invoked
exactly once, in both variants. -/
theorem C9_close_once :
    (∀ o : ShowOutcome,
        (runSerialFinish true o).1.phase = Phase.closed ∧
        (runSerialFinish true o).1.closeCalls = 1) ∧
    (∀ ticks : List TickEvent,
        (runVideo true ticks).phase = Phase.closed ∧
        (runVideo true ticks).closeCalls = 1) := by
  constructor
  · intro o
    cases o <;> exact ⟨rfl, rfl⟩
  · intro ticks
    rw [runVideo]
    cases videoLoop ticks <;> exact ⟨rfl, rfl⟩
